import Mathlib

/-!
Verification of the memory-ai-assistant repository.

The repository's source contains the React frontend (`Chat.jsx` in two
variants, `Message.jsx`, `MemoryPanel.jsx`), a README describing the FastAPI
backend, and the SQL schema (`conversations`, `messages`, `memory_vectors`).
The backend implementation itself is not part of the source tree, so the
backend operations (chat endpoint, memory selector, persistence) are modelled
from the specification; the frontend components are embedded directly from
their JavaScript source.

All timestamps are modelled as natural numbers; JavaScript strings as `String`.
-/

/-! ## Frontend data model

A chat message as built by `Chat.jsx`: plain user messages carry no
`memories` and no `isError` field (modelled as `none` / `false`), assistant
messages carry `memories`, error messages carry `isError: true`. -/

structure ChatMsg where
  role : String
  content : String
  timestamp : Nat
  memories : Option (List String)
  isError : Bool
deriving DecidableEq, Repr

/-- The React component state of `Chat.jsx`: the `useState` hooks
`messages`, `inputMessage`, `conversationId`, `userId`, `memories`,
`loading`. -/
structure ChatState where
  messages : List ChatMsg
  inputMessage : String
  conversationId : Option String
  userId : String
  memories : List String
  loading : Bool
deriving DecidableEq, Repr

/-- The JSON body of a successful `POST /chat` response as consumed by
`Chat.jsx` (`response.data`). -/
structure ChatResponseData where
  response : String
  timestamp : Nat
  conversation_id : String
  memory_used : List String
deriving DecidableEq, Repr

/-- Outcome of the awaited `axios.post` call: either a successful response,
or a thrown error (carrying only the time at which the catch block runs). -/
inductive ServerOutcome where
  | success (r : ChatResponseData)
  | failure (tErr : Nat)
deriving DecidableEq, Repr

/-- The HTTP request issued by `axios.post(url, body)` in `sendMessage`. -/
structure PostRequest where
  url : String
  message : String
  user_id : String
  conversation_id : Option String
deriving DecidableEq, Repr

/-- JavaScript truthiness of the `conversationId` state variable
(`null` and the empty string are falsy, every other string is truthy). -/
def jsTruthyStr : Option String → Bool
  | none => false
  | some s => s ≠ ""

/-- JavaScript `String.prototype.trim`: strip whitespace from both ends. -/
def jsTrim (s : String) : String :=
  ⟨((s.data.dropWhile Char.isWhitespace).reverse.dropWhile Char.isWhitespace).reverse⟩

namespace Part001

/-- The URL passed to `axios.post` in the first `Chat.jsx` variant
(src/unnamed/part_001, line 38). -/
def apiUrl : String := "https://memory-ai-assistant1.vercel.app/chat"

/-- `sendMessage` of the first `Chat.jsx` variant (src/unnamed/part_001,
lines 24-69), embedded as a state transition.  `now` is the value of
`new Date()` when the user message is built; the awaited `axios.post` is
represented by the `outcome` argument.  Returns the new component state and
the request sent, `none` when the guard `if (!inputMessage.trim()) return`
fires. -/
def sendMessage (st : ChatState) (now : Nat) (outcome : ServerOutcome) :
    ChatState × Option PostRequest :=
  if jsTrim st.inputMessage = "" then (st, none)
  else
    let userMessage : ChatMsg :=
      { role := "user", content := st.inputMessage, timestamp := now,
        memories := none, isError := false }
    let st1 : ChatState :=
      { st with messages := st.messages ++ [userMessage],
                inputMessage := "", loading := true }
    let req : PostRequest :=
      { url := apiUrl, message := st.inputMessage, user_id := st.userId,
        conversation_id := st.conversationId }
    match outcome with
    | .success r =>
        let aiMessage : ChatMsg :=
          { role := "assistant", content := r.response,
            timestamp := r.timestamp, memories := some r.memory_used,
            isError := false }
        let st2 : ChatState :=
          { st1 with messages := st1.messages ++ [aiMessage],
                     memories := r.memory_used }
        let st3 : ChatState :=
          if jsTruthyStr st.conversationId then st2
          else { st2 with conversationId := some r.conversation_id }
        ({ st3 with loading := false }, some req)
    | .failure tErr =>
        let errorMessage : ChatMsg :=
          { role := "assistant",
            content := "Sorry, I encountered an error. Please try again.",
            timestamp := tErr, memories := none, isError := true }
        ({ st1 with messages := st1.messages ++ [errorMessage],
                    loading := false }, some req)

end Part001

namespace Frontend

/-- `API_BASE_URL` of the second `Chat.jsx` variant
(src/frontend/src/components/Chat.jsx, line 17). -/
def API_BASE_URL : String := "https://memory-ai-assistant-wpwf.vercel.app"

/-- The URL passed to `axios.post` in the second variant:
`${API_BASE_URL}/chat`. -/
def apiUrl : String := API_BASE_URL ++ "/chat"

/-- `sendMessage` of the second `Chat.jsx` variant
(src/frontend/src/components/Chat.jsx, lines 27-73), embedded exactly as
`Part001.sendMessage` is; the JavaScript bodies differ only in the URL
given to `axios.post`. -/
def sendMessage (st : ChatState) (now : Nat) (outcome : ServerOutcome) :
    ChatState × Option PostRequest :=
  if jsTrim st.inputMessage = "" then (st, none)
  else
    let userMessage : ChatMsg :=
      { role := "user", content := st.inputMessage, timestamp := now,
        memories := none, isError := false }
    let st1 : ChatState :=
      { st with messages := st.messages ++ [userMessage],
                inputMessage := "", loading := true }
    let req : PostRequest :=
      { url := apiUrl, message := st.inputMessage, user_id := st.userId,
        conversation_id := st.conversationId }
    match outcome with
    | .success r =>
        let aiMessage : ChatMsg :=
          { role := "assistant", content := r.response,
            timestamp := r.timestamp, memories := some r.memory_used,
            isError := false }
        let st2 : ChatState :=
          { st1 with messages := st1.messages ++ [aiMessage],
                     memories := r.memory_used }
        let st3 : ChatState :=
          if jsTruthyStr st.conversationId then st2
          else { st2 with conversationId := some r.conversation_id }
        ({ st3 with loading := false }, some req)
    | .failure tErr =>
        let errorMessage : ChatMsg :=
          { role := "assistant",
            content := "Sorry, I encountered an error. Please try again.",
            timestamp := tErr, memories := none, isError := true }
        ({ st1 with messages := st1.messages ++ [errorMessage],
                    loading := false }, some req)

end Frontend

/-! ## Backend data model

The backend implementation is not in the source tree; only its SQL schema
(src/unnamed/part_003) and its frontend callers are.  The records below
follow the schema, and the operations on them are modelled from the spec. -/

/-- A row of the `conversations` table (src/unnamed/part_003, lines 37-44):
id, user_id, title, created_at, updated_at. -/
structure Conversation where
  id : String
  user_id : String
  title : String
  created_at : Nat
  updated_at : Nat
deriving DecidableEq, Repr

/-- A row of the `messages` table (src/unnamed/part_003, lines 46-54):
id, conversation_id, role (`user` or `assistant`), content, timestamp. -/
structure StoredMessage where
  id : String
  conversation_id : String
  role : String
  content : String
  timestamp : Nat
deriving DecidableEq, Repr

/-- A row of the `memory_vectors` table (src/unnamed/part_003, lines 56-64):
id, user_id, content, metadata, created_at.  The JSON `metadata` column is
modelled as a string-to-string mapping; the `embedding` column plays no role
in any claim and is omitted. -/
structure MemoryItem where
  id : String
  user_id : String
  content : String
  metadata : List (String × String)
  created_at : Nat
deriving DecidableEq, Repr

/-- The persistent store: the three tables of the schema. -/
structure Store where
  conversations : List Conversation
  messages : List StoredMessage
  memory_items : List MemoryItem
deriving DecidableEq, Repr

/-! ## Memory Selector (modelled from the spec) -/

/-- The words of a text, split on spaces. -/
def words (s : String) : List String :=
  (s.splitOn " ").filter (fun w => w ≠ "")

/-- Modelled from the spec: the Memory Selector's lexical-overlap score
(spec 4.2, "scan all memory items for the user and score by lexical overlap
with the query"): the number of words of the item's content that also occur
in the query. -/
def overlapScore (query content : String) : Nat :=
  ((words content).filter (fun w => (words query).contains w)).length

/-- Modelled from the spec: the selection order of the Memory Selector —
higher score first, and on ties the more recently created item first
(spec 4.2, "Ties broken by recency (most recent first)"). -/
def memOrder (q : String) (a b : MemoryItem) : Prop :=
  overlapScore q b.content < overlapScore q a.content ∨
    (overlapScore q a.content = overlapScore q b.content ∧
      b.created_at ≤ a.created_at)

instance (q : String) : DecidableRel (memOrder q) := fun a b => by
  unfold memOrder; infer_instance

/-- Modelled from the spec: the Memory Selector (spec 4.2).  The backend
source is absent; per the spec it scans all memory items belonging to the
given user, orders them by lexical-overlap score with ties broken by
recency, and returns at most `N` of them. -/
def selectMemories (items : List MemoryItem) (user_id query : String)
    (N : Nat) : List MemoryItem :=
  (List.insertionSort (memOrder query)
    (items.filter (fun m => m.user_id = user_id))).take N

/-- Modelled from the spec: the Prompt Assembler (spec 4.1 and glossary),
which "concatenates selected memories plus the new message into a request". -/
def assemblePrompt (memories : List String) (message : String) : String :=
  String.intercalate "\n" memories ++ "\n" ++ message

/-! ## Chat Endpoint (modelled from the spec) -/

/-- The success-response JSON of `POST /chat`
(spec 6: `{response, timestamp, conversation_id, memory_used: [string]}`). -/
structure ChatOk where
  response : String
  timestamp : Nat
  conversation_id : String
  memory_used : List String
deriving DecidableEq, Repr

/-- The request JSON of `POST /chat`
(spec 6: `{message, user_id, conversation_id?}`). -/
structure EndpointRequest where
  message : String
  user_id : String
  conversation_id : Option String
deriving DecidableEq, Repr

/-- Result of one chat turn: the updated store, the HTTP result
(success JSON or error), and the list of prompts sent to the external AI
service during the turn (recording how many calls were made). -/
structure ChatStep where
  store : Store
  result : Except String ChatOk
  aiCalls : List String
deriving Repr

/-- Persist one message row (one transactional insert, spec 5). -/
def addMessage (store : Store) (m : StoredMessage) : Store :=
  { store with messages := store.messages ++ [m] }

/-- Modelled from the spec: the Chat Endpoint (spec 4.1).  The backend
source is absent; per the spec: if the conversation id is absent, create a
new Conversation for the user; persist the incoming user Message; run the
Memory Selector; assemble the prompt; call the external AI service once
(`ai`, returning `none` on failure).  On success persist the assistant
Message, derive a new Memory Item (spec 4.3, "some text, persisted under
the user id"), and return the response JSON; on failure return an error
without persisting anything further and without retrying.  Fresh ids and
the current time are supplied as arguments. -/
def chatEndpoint (store : Store) (req : EndpointRequest)
    (ai : String → Option String)
    (freshConvId freshUserMsgId freshAsstMsgId freshMemId : String)
    (now : Nat) (N : Nat) : ChatStep :=
  let convId := req.conversation_id.getD freshConvId
  let store1 :=
    match req.conversation_id with
    | some _ => store
    | none =>
        { store with conversations := store.conversations ++
            [{ id := freshConvId, user_id := req.user_id,
               title := req.message, created_at := now, updated_at := now }] }
  let userMsg : StoredMessage :=
    { id := freshUserMsgId, conversation_id := convId, role := "user",
      content := req.message, timestamp := now }
  let store2 := addMessage store1 userMsg
  let mems := selectMemories store2.memory_items req.user_id req.message N
  let prompt := assemblePrompt (mems.map (fun m => m.content)) req.message
  match ai prompt with
  | some replyText =>
      let asstMsg : StoredMessage :=
        { id := freshAsstMsgId, conversation_id := convId,
          role := "assistant", content := replyText, timestamp := now }
      let store3 := addMessage store2 asstMsg
      let memItem : MemoryItem :=
        { id := freshMemId, user_id := req.user_id, content := req.message,
          metadata := [], created_at := now }
      let store4 :=
        { store3 with memory_items := store3.memory_items ++ [memItem] }
      { store := store4,
        result := .ok { response := replyText, timestamp := now,
                        conversation_id := convId,
                        memory_used := mems.map (fun m => m.content) },
        aiCalls := [prompt] }
  | none =>
      { store := store2, result := .error "AI service error",
        aiCalls := [prompt] }

/-- The per-turn inputs of one chat call, for reasoning about sequences of
normal chat-flow operations. -/
structure ChatCall where
  req : EndpointRequest
  ai : String → Option String
  freshConvId : String
  freshUserMsgId : String
  freshAsstMsgId : String
  freshMemId : String
  now : Nat
  N : Nat

/-- A sequence of chat turns, each one applied to the store left by the
previous one. -/
def runChat (store : Store) : List ChatCall → Store
  | [] => store
  | c :: cs =>
      runChat (chatEndpoint store c.req c.ai c.freshConvId c.freshUserMsgId
        c.freshAsstMsgId c.freshMemId c.now c.N).store cs

/-- Fetching a conversation's messages back from the store:
`SELECT` the rows with the given conversation id, `ORDER BY timestamp`
(the `messages` table is indexed by conversation_id; spec 3, "ordered by
timestamp within a conversation"). -/
def fetchMessages (store : Store) (convId : String) : List StoredMessage :=
  List.insertionSort (fun a b => a.timestamp ≤ b.timestamp)
    (store.messages.filter (fun m => m.conversation_id = convId))

/-! ## Properties of the Memory Selector order -/

theorem memOrder_total (q : String) (a b : MemoryItem) :
    memOrder q a b ∨ memOrder q b a := by
  unfold memOrder; omega

theorem memOrder_trans (q : String) (a b c : MemoryItem) :
    memOrder q a b → memOrder q b c → memOrder q a c := by
  unfold memOrder; omega

theorem sorted_selector_order (q : String) (l : List MemoryItem) :
    List.Sorted (memOrder q) (List.insertionSort (memOrder q) l) := by
  haveI : IsTotal MemoryItem (memOrder q) := ⟨memOrder_total q⟩
  haveI : IsTrans MemoryItem (memOrder q) := ⟨memOrder_trans q⟩
  exact List.sorted_insertionSort (memOrder q) l

/-- Claim C1: for every user id and query text, the Memory Selector returns
at most `N` memory items, and every returned item's user id equals the query
user id. -/
theorem C1_selector_bound_and_owner (items : List MemoryItem)
    (u q : String) (N : Nat) :
    (selectMemories items u q N).length ≤ N ∧
      ∀ m ∈ selectMemories items u q N, m.user_id = u := by
  constructor
  · simp [selectMemories]
  · intro m hm
    have h1 : m ∈ List.insertionSort (memOrder q)
        (items.filter (fun x => x.user_id = u)) := List.mem_of_mem_take hm
    have h2 : m ∈ items.filter (fun x => x.user_id = u) :=
      (List.perm_insertionSort (memOrder q) _).mem_iff.mp h1
    simpa using List.of_mem_filter h2

/-- A small concrete memory store used to instantiate the selector claims. -/
def sampleItems : List MemoryItem :=
  [{ id := "m1", user_id := "u1", content := "favorite color is blue",
     metadata := [], created_at := 1 },
   { id := "m2", user_id := "u2", content := "likes red", metadata := [],
     created_at := 2 },
   { id := "m3", user_id := "u1", content := "blue car", metadata := [],
     created_at := 3 },
   { id := "m4", user_id := "u1", content := "has a dog", metadata := [],
     created_at := 4 }]

theorem C1_witness :
    (selectMemories sampleItems "u1" "what is my favorite color" 2).length ≤ 2 ∧
      ∀ m ∈ selectMemories sampleItems "u1" "what is my favorite color" 2,
        m.user_id = "u1" :=
  C1_selector_bound_and_owner sampleItems "u1" "what is my favorite color" 2

/-- Claim C6: whenever two memory items tie under the Memory Selector's
selection score, the more recently created item is returned before the
other: in the returned list, any item occurring before a tied item was
created at least as recently. -/
theorem C6_ties_broken_by_recency (items : List MemoryItem)
    (u q : String) (N : Nat) :
    (selectMemories items u q N).Pairwise (fun a b =>
      overlapScore q a.content = overlapScore q b.content →
        b.created_at ≤ a.created_at) := by
  have hs := sorted_selector_order q (items.filter (fun x => x.user_id = u))
  have hp : (List.insertionSort (memOrder q)
      (items.filter (fun x => x.user_id = u))).Pairwise (fun a b =>
        overlapScore q a.content = overlapScore q b.content →
          b.created_at ≤ a.created_at) := by
    refine hs.imp ?_
    intro a b hab heq
    unfold memOrder at hab
    omega
  exact List.Pairwise.sublist (List.take_sublist N _) hp

theorem C6_witness :
    (selectMemories sampleItems "u1" "blue" 3).Pairwise (fun a b =>
      overlapScore "blue" a.content = overlapScore "blue" b.content →
        b.created_at ≤ a.created_at) :=
  C6_ties_broken_by_recency sampleItems "u1" "blue" 3

/-! ## Message round-trip (C4) -/

/-- Claim C4: a Message persisted under a conversation id and then fetched
back by that conversation id is returned (the identical row, hence with the
same role and content), and the fetched messages of a conversation are in
timestamp order. -/
theorem C4_message_roundtrip (store : Store) (m : StoredMessage) :
    m ∈ fetchMessages (addMessage store m) m.conversation_id ∧
      (fetchMessages (addMessage store m) m.conversation_id).Pairwise
        (fun a b => a.timestamp ≤ b.timestamp) := by
  constructor
  · have h1 : m ∈ (addMessage store m).messages.filter
        (fun x => x.conversation_id = m.conversation_id) := by
      simp [addMessage]
    exact (List.perm_insertionSort _ _).mem_iff.mpr h1
  · haveI : IsTotal StoredMessage (fun a b => a.timestamp ≤ b.timestamp) :=
      ⟨fun a b => Nat.le_total _ _⟩
    haveI : IsTrans StoredMessage (fun a b => a.timestamp ≤ b.timestamp) :=
      ⟨fun _ _ _ => Nat.le_trans⟩
    exact List.sorted_insertionSort _ _

/-- A small concrete store used to instantiate the persistence claims. -/
def sampleStore : Store :=
  { conversations :=
      [{ id := "c1", user_id := "u1", title := "hello", created_at := 0,
         updated_at := 0 }],
    messages :=
      [{ id := "msg1", conversation_id := "c1", role := "user",
         content := "hello", timestamp := 1 }],
    memory_items := sampleItems }

theorem C4_witness :
    { id := "msg2", conversation_id := "c1", role := "assistant",
      content := "hi there", timestamp := 2 } ∈
        fetchMessages (addMessage sampleStore
          { id := "msg2", conversation_id := "c1", role := "assistant",
            content := "hi there", timestamp := 2 }) "c1" ∧
      (fetchMessages (addMessage sampleStore
          { id := "msg2", conversation_id := "c1", role := "assistant",
            content := "hi there", timestamp := 2 }) "c1").Pairwise
        (fun a b => a.timestamp ≤ b.timestamp) :=
  C4_message_roundtrip sampleStore
    { id := "msg2", conversation_id := "c1", role := "assistant",
      content := "hi there", timestamp := 2 }

/-! ## Append-only memory store (C5) -/

theorem chatEndpoint_memory_extends (store : Store) (req : EndpointRequest)
    (ai : String → Option String)
    (fc fu fa fm : String) (now N : Nat) :
    ∃ tail, (chatEndpoint store req ai fc fu fa fm now N).store.memory_items =
      store.memory_items ++ tail := by
  rcases req with ⟨msg, uid, cid⟩
  cases cid with
  | none =>
      simp only [chatEndpoint, addMessage]
      split
      · exact ⟨_, rfl⟩
      · exact ⟨[], by simp⟩
  | some c =>
      simp only [chatEndpoint, addMessage]
      split
      · exact ⟨_, rfl⟩
      · exact ⟨[], by simp⟩

theorem runChat_memory_extends (cs : List ChatCall) (store : Store) :
    ∃ tail, (runChat store cs).memory_items = store.memory_items ++ tail := by
  induction cs generalizing store with
  | nil => exact ⟨[], by simp [runChat]⟩
  | cons c cs ih =>
      obtain ⟨t1, h1⟩ := chatEndpoint_memory_extends store c.req c.ai
        c.freshConvId c.freshUserMsgId c.freshAsstMsgId c.freshMemId c.now c.N
      obtain ⟨t2, h2⟩ := ih (chatEndpoint store c.req c.ai c.freshConvId
        c.freshUserMsgId c.freshAsstMsgId c.freshMemId c.now c.N).store
      exact ⟨t1 ++ t2, by simp [runChat, h2, h1]⟩

/-- Claim C5: across every sequence of normal chat-flow operations, the
memory store is append-only — the previous memory items are an unchanged
prefix of the new ones — so no Memory Item is ever deleted and every stored
item (an immutable row) stays associated with its user id. -/
theorem C5_memory_append_only (store : Store) (cs : List ChatCall) :
    (∃ tail, (runChat store cs).memory_items = store.memory_items ++ tail) ∧
      ∀ m ∈ store.memory_items, m ∈ (runChat store cs).memory_items := by
  obtain ⟨t, ht⟩ := runChat_memory_extends cs store
  refine ⟨⟨t, ht⟩, fun m hm => ?_⟩
  rw [ht]
  exact List.mem_append_left _ hm

/-- A concrete two-turn chat sequence for the append-only claim. -/
def sampleCalls : List ChatCall :=
  [{ req :=
       { message := "my favorite color is blue", user_id := "u1",
         conversation_id := none },
     ai := fun _ => some "noted!",
     freshConvId := "c9",
     freshUserMsgId := "m10", freshAsstMsgId := "m11", freshMemId := "mem10",
     now := 10, N := 5 },
   { req :=
       { message := "what is my favorite color", user_id := "u1",
         conversation_id := some "c9" },
     ai := fun _ => none,
     freshConvId := "c10",
     freshUserMsgId := "m12", freshAsstMsgId := "m13", freshMemId := "mem11",
     now := 11, N := 5 }]

theorem C5_witness :
    (∃ tail, (runChat sampleStore sampleCalls).memory_items =
      sampleStore.memory_items ++ tail) ∧
      ∀ m ∈ sampleStore.memory_items,
        m ∈ (runChat sampleStore sampleCalls).memory_items :=
  C5_memory_append_only sampleStore sampleCalls

/-! ## AI-service failure (C2) -/

/-- Claim C2: on a chat request during which the external AI service call
fails, the endpoint returns an error result after exactly one AI call (no
retry) and persists only the user's Message — no assistant Message and no
memory write — while the chat UI appends an error-flagged message
(`isError: true`) for the failed turn. -/
theorem C2_ai_failure_no_assistant (store : Store) (req : EndpointRequest)
    (ai : String → Option String) (fc fu fa fm : String) (now N : Nat)
    (hfail : ∀ p, ai p = none)
    (st : ChatState) (tSend tErr : Nat)
    (hinput : jsTrim st.inputMessage ≠ "") :
    (∃ e, (chatEndpoint store req ai fc fu fa fm now N).result =
        Except.error e) ∧
    (chatEndpoint store req ai fc fu fa fm now N).aiCalls.length = 1 ∧
    (chatEndpoint store req ai fc fu fa fm now N).store.messages =
      store.messages ++
        [{ id := fu, conversation_id := req.conversation_id.getD fc,
           role := "user", content := req.message, timestamp := now }] ∧
    (∀ m ∈ (chatEndpoint store req ai fc fu fa fm now N).store.messages,
        m ∈ store.messages ∨ m.role = "user") ∧
    (chatEndpoint store req ai fc fu fa fm now N).store.memory_items =
      store.memory_items ∧
    (Part001.sendMessage st tSend (ServerOutcome.failure tErr)).1.messages =
      st.messages ++
        [{ role := "user", content := st.inputMessage, timestamp := tSend,
           memories := none, isError := false },
         { role := "assistant",
           content := "Sorry, I encountered an error. Please try again.",
           timestamp := tErr, memories := none, isError := true }] := by
  have hmessages : (chatEndpoint store req ai fc fu fa fm now N).store.messages =
      store.messages ++
        [{ id := fu, conversation_id := req.conversation_id.getD fc,
           role := "user", content := req.message, timestamp := now }] := by
    rcases req with ⟨msg, uid, cid⟩
    cases cid <;> simp [chatEndpoint, hfail, addMessage]
  refine ⟨?_, ?_, hmessages, ?_, ?_, ?_⟩
  · rcases req with ⟨msg, uid, cid⟩
    cases cid <;> simp [chatEndpoint, hfail, addMessage]
  · rcases req with ⟨msg, uid, cid⟩
    cases cid <;> simp [chatEndpoint, hfail, addMessage]
  · intro m hm
    rw [hmessages] at hm
    rcases List.mem_append.mp hm with h | h
    · exact Or.inl h
    · right
      simp only [List.mem_singleton] at h
      subst h
      rfl
  · rcases req with ⟨msg, uid, cid⟩
    cases cid <;> simp [chatEndpoint, hfail, addMessage]
  · simp [Part001.sendMessage, hinput]

/-- A concrete request and frontend state for the failure claim. -/
def wReq : EndpointRequest :=
  { message := "hi there", user_id := "u1", conversation_id := some "c1" }

def wChatSt : ChatState :=
  { messages := [], inputMessage := "hello", conversationId := none,
    userId := "u9", memories := [], loading := false }

theorem C2_witness :
    (∃ e, (chatEndpoint sampleStore wReq (fun _ => none) "c9" "m20" "m21"
        "mem20" 20 5).result = Except.error e) ∧
    (chatEndpoint sampleStore wReq (fun _ => none) "c9" "m20" "m21" "mem20"
      20 5).aiCalls.length = 1 ∧
    (chatEndpoint sampleStore wReq (fun _ => none) "c9" "m20" "m21" "mem20"
      20 5).store.messages =
      sampleStore.messages ++
        [{ id := "m20", conversation_id := wReq.conversation_id.getD "c9",
           role := "user", content := wReq.message, timestamp := 20 }] ∧
    (∀ m ∈ (chatEndpoint sampleStore wReq (fun _ => none) "c9" "m20" "m21"
        "mem20" 20 5).store.messages,
        m ∈ sampleStore.messages ∨ m.role = "user") ∧
    (chatEndpoint sampleStore wReq (fun _ => none) "c9" "m20" "m21" "mem20"
      20 5).store.memory_items = sampleStore.memory_items ∧
    (Part001.sendMessage wChatSt 1 (ServerOutcome.failure 2)).1.messages =
      wChatSt.messages ++
        [{ role := "user", content := wChatSt.inputMessage, timestamp := 1,
           memories := none, isError := false },
         { role := "assistant",
           content := "Sorry, I encountered an error. Please try again.",
           timestamp := 2, memories := none, isError := true }] :=
  C2_ai_failure_no_assistant sampleStore wReq (fun _ => none) "c9" "m20"
    "m21" "mem20" 20 5 (fun _ => rfl) wChatSt 1 2 (by decide)

/-! ## New conversation creation (C3) -/

/-- Claim C3: a valid chat request carrying no conversation id yields a
response whose conversation id is the freshly created one, and the store
now holds a Conversation with that id owned by the requesting user which
was not present before. -/
theorem C3_new_conversation_id (store : Store) (req : EndpointRequest)
    (ai : String → Option String) (reply : String → String)
    (fc fu fa fm : String) (now N : Nat)
    (hok : ∀ p, ai p = some (reply p))
    (hnone : req.conversation_id = none)
    (hfresh : ∀ c ∈ store.conversations, c.id ≠ fc) :
    ∃ r, (chatEndpoint store req ai fc fu fa fm now N).result =
        Except.ok r ∧
      r.conversation_id = fc ∧
      ∃ conv ∈ (chatEndpoint store req ai fc fu fa fm now N).store.conversations,
        conv.id = fc ∧ conv.user_id = req.user_id ∧
          conv ∉ store.conversations := by
  rcases req with ⟨msg, uid, cid⟩
  simp only [EndpointRequest.conversation_id] at hnone
  subst hnone
  simp only [chatEndpoint, hok, addMessage]
  exact ⟨_, rfl, rfl, _,
    List.mem_append_right _ (List.mem_singleton_self _), rfl, rfl,
    fun hmem => hfresh _ hmem rfl⟩

theorem C3_witness :
    ∃ r, (chatEndpoint sampleStore
        { message := "hello there", user_id := "u7",
          conversation_id := none }
        (fun _ => some "hi!") "c77" "m30" "m31" "mem30" 30 5).result =
      Except.ok r ∧
      r.conversation_id = "c77" ∧
      ∃ conv ∈ (chatEndpoint sampleStore
          { message := "hello there", user_id := "u7",
            conversation_id := none }
          (fun _ => some "hi!") "c77" "m30" "m31" "mem30" 30 5).store.conversations,
        conv.id = "c77" ∧
          conv.user_id = EndpointRequest.user_id
            { message := "hello there", user_id := "u7",
              conversation_id := none } ∧
          conv ∉ sampleStore.conversations :=
  C3_new_conversation_id sampleStore
    { message := "hello there", user_id := "u7", conversation_id := none }
    (fun _ => some "hi!") (fun _ => "hi!") "c77" "m30" "m31" "mem30" 30 5
    (fun _ => rfl) rfl (by decide)

/-! ## Success-response shape (C7) -/

/-- Claim C7: every successful `POST /chat` response is exactly the JSON
object `{response, timestamp, conversation_id, memory_used}` — the
response text returned by the AI service for the single prompt sent, the
turn's timestamp, the conversation id of the turn, and the selected memory
contents as a list of strings; the final conjunct exhibits the record as
built from exactly these four fields. -/
theorem C7_success_response_shape (store : Store) (req : EndpointRequest)
    (ai : String → Option String) (reply : String → String)
    (fc fu fa fm : String) (now N : Nat)
    (hok : ∀ p, ai p = some (reply p)) :
    ∃ p r, (chatEndpoint store req ai fc fu fa fm now N).aiCalls = [p] ∧
      (chatEndpoint store req ai fc fu fa fm now N).result = Except.ok r ∧
      r.response = reply p ∧
      r.timestamp = now ∧
      r.conversation_id = req.conversation_id.getD fc ∧
      r.memory_used = (selectMemories store.memory_items req.user_id
        req.message N).map (fun m => m.content) ∧
      r = ChatOk.mk r.response r.timestamp r.conversation_id r.memory_used := by
  rcases req with ⟨msg, uid, cid⟩
  cases cid <;>
    · simp only [chatEndpoint, hok, addMessage]
      exact ⟨_, _, rfl, rfl, rfl, rfl, rfl, rfl, trivial⟩

theorem C7_witness :
    ∃ p r, (chatEndpoint sampleStore wReq (fun s => some ("echo: " ++ s))
        "c9" "m40" "m41" "mem40" 40 2).aiCalls = [p] ∧
      (chatEndpoint sampleStore wReq (fun s => some ("echo: " ++ s)) "c9"
        "m40" "m41" "mem40" 40 2).result = Except.ok r ∧
      r.response = "echo: " ++ p ∧
      r.timestamp = 40 ∧
      r.conversation_id = wReq.conversation_id.getD "c9" ∧
      r.memory_used = (selectMemories sampleStore.memory_items
        wReq.user_id wReq.message 2).map (fun m => m.content) ∧
      r = ChatOk.mk r.response r.timestamp r.conversation_id r.memory_used :=
  C7_success_response_shape sampleStore wReq (fun s => some ("echo: " ++ s))
    (fun s => "echo: " ++ s) "c9" "m40" "m41" "mem40" 40 2 (fun _ => rfl)

/-! ## Blank-input guard (C9) -/

theorem jsTrim_blank {s : String}
    (h : s.data.all Char.isWhitespace = true) : jsTrim s = "" := by
  have h1 : s.data.dropWhile Char.isWhitespace = [] :=
    List.dropWhile_eq_nil_iff.mpr (fun x hx => List.all_eq_true.mp h x hx)
  unfold jsTrim
  rw [h1]
  rfl

/-- Claim C9: when the input is empty or whitespace-only, `sendMessage`
(in either `Chat.jsx` variant) performs no HTTP request and returns the
component state unchanged — message list, conversation id, and input
field included. -/
theorem C9_blank_input_noop (st : ChatState) (now : Nat) (o : ServerOutcome)
    (h : st.inputMessage = "" ∨
      st.inputMessage.data.all Char.isWhitespace = true) :
    Part001.sendMessage st now o = (st, none) ∧
      Frontend.sendMessage st now o = (st, none) := by
  have hw : st.inputMessage.data.all Char.isWhitespace = true := by
    rcases h with h | h
    · rw [h]; decide
    · exact h
  have ht : jsTrim st.inputMessage = "" := jsTrim_blank hw
  constructor
  · simp [Part001.sendMessage, ht]
  · simp [Frontend.sendMessage, ht]

/-- A frontend state whose input field holds only whitespace. -/
def wBlankSt : ChatState :=
  { messages := [], inputMessage := "  ", conversationId := some "c",
    userId := "u", memories := [], loading := false }

theorem C9_witness :
    Part001.sendMessage wBlankSt 7 (ServerOutcome.failure 8) =
        (wBlankSt, none) ∧
      Frontend.sendMessage wBlankSt 7 (ServerOutcome.failure 8) =
        (wBlankSt, none) :=
  C9_blank_input_noop wBlankSt 7 (ServerOutcome.failure 8)
    (Or.inr (by decide))

/-! ## Equivalence of the two Chat variants (C10) -/

/-- The body of a `POST /chat` request, without the URL. -/
def reqBody (r : PostRequest) : String × String × Option String :=
  (r.message, r.user_id, r.conversation_id)

/-- Claim C10: the two `Chat.jsx` variants implement the same `sendMessage`
behavior — for every state, input and server outcome they produce the same
component state (message list, memories, conversationId, input, loading) and
send the same request body, differing only in the API URL contacted. -/
theorem C10_variants_equivalent (st : ChatState) (now : Nat)
    (o : ServerOutcome) :
    (Part001.sendMessage st now o).1 = (Frontend.sendMessage st now o).1 ∧
      (Part001.sendMessage st now o).2.map reqBody =
        (Frontend.sendMessage st now o).2.map reqBody ∧
      (∀ r ∈ (Part001.sendMessage st now o).2, r.url = Part001.apiUrl) ∧
      (∀ r ∈ (Frontend.sendMessage st now o).2, r.url = Frontend.apiUrl) := by
  by_cases hb : jsTrim st.inputMessage = "" <;> cases o <;>
    simp [Part001.sendMessage, Frontend.sendMessage, hb, reqBody]

theorem C10_witness :
    (Part001.sendMessage wChatSt 1 (ServerOutcome.success
        { response := "ok", timestamp := 2, conversation_id := "c5",
          memory_used := ["m"] })).1 =
      (Frontend.sendMessage wChatSt 1 (ServerOutcome.success
        { response := "ok", timestamp := 2, conversation_id := "c5",
          memory_used := ["m"] })).1 ∧
      (Part001.sendMessage wChatSt 1 (ServerOutcome.success
          { response := "ok", timestamp := 2, conversation_id := "c5",
            memory_used := ["m"] })).2.map reqBody =
        (Frontend.sendMessage wChatSt 1 (ServerOutcome.success
          { response := "ok", timestamp := 2, conversation_id := "c5",
            memory_used := ["m"] })).2.map reqBody ∧
      (∀ r ∈ (Part001.sendMessage wChatSt 1 (ServerOutcome.success
          { response := "ok", timestamp := 2, conversation_id := "c5",
            memory_used := ["m"] })).2, r.url = Part001.apiUrl) ∧
      (∀ r ∈ (Frontend.sendMessage wChatSt 1 (ServerOutcome.success
          { response := "ok", timestamp := 2, conversation_id := "c5",
            memory_used := ["m"] })).2, r.url = Frontend.apiUrl) :=
  C10_variants_equivalent wChatSt 1 (ServerOutcome.success
    { response := "ok", timestamp := 2, conversation_id := "c5",
      memory_used := ["m"] })

/-! ## Conversation-id stability (C8)

The guard in both variants is `if (!conversationId)`, which is JavaScript
falsiness, not a null check: the empty string is falsy too.  A session in
which the server returns an empty `conversation_id` therefore sets
`conversationId` to a non-null value that a later response overwrites,
refuting the claim as stated; stability holds from the first truthy
(non-null, non-empty) value on. -/

def cexSt0 : ChatState :=
  { messages := [], inputMessage := "hi", conversationId := none,
    userId := "u", memories := [], loading := false }

/-- The state after a first turn in which the server replied with the empty
string as `conversation_id`: `conversationId` is now `some ""`, a non-null
value, and the user has typed the next message. -/
def cexSt1 : ChatState :=
  { (Part001.sendMessage cexSt0 0 (ServerOutcome.success
      { response := "r1", timestamp := 1, conversation_id := "",
        memory_used := [] })).1 with inputMessage := "again" }

/-- Claim C8 is false as stated: in this session `conversationId` was set
by a response to the non-null value `some ""`, yet the next response's
`conversation_id` is not ignored — it overwrites the state with
`some "c2"`. -/
theorem C8_counterexample :
    cexSt1.conversationId = some "" ∧
      (Part001.sendMessage cexSt1 2 (ServerOutcome.success
        { response := "r2", timestamp := 3, conversation_id := "c2",
          memory_used := [] })).1.conversationId = some "c2" ∧
      (some "c2" : Option String) ≠ some "" := by
  decide

/-- Claim C8 (amended): once `conversationId` holds a truthy value — a
non-null, non-empty string — it is never changed again by either variant's
`sendMessage`, and every request sent carries that stored conversation
id. -/
theorem C8_amended_truthy_stable (st : ChatState) (now : Nat)
    (o : ServerOutcome) (h : jsTruthyStr st.conversationId = true) :
    (Part001.sendMessage st now o).1.conversationId = st.conversationId ∧
      (Frontend.sendMessage st now o).1.conversationId = st.conversationId ∧
      (∀ r ∈ (Part001.sendMessage st now o).2,
        r.conversation_id = st.conversationId) ∧
      (∀ r ∈ (Frontend.sendMessage st now o).2,
        r.conversation_id = st.conversationId) := by
  by_cases hb : jsTrim st.inputMessage = "" <;> cases o <;>
    simp [Part001.sendMessage, Frontend.sendMessage, hb, h]

/-- A frontend state already holding a truthy conversation id. -/
def wConvSt : ChatState :=
  { messages := [], inputMessage := "hi", conversationId := some "c1",
    userId := "u", memories := [], loading := false }

theorem C8_witness :
    (Part001.sendMessage wConvSt 5 (ServerOutcome.success
        { response := "r", timestamp := 6, conversation_id := "cX",
          memory_used := [] })).1.conversationId = wConvSt.conversationId ∧
      (Frontend.sendMessage wConvSt 5 (ServerOutcome.success
          { response := "r", timestamp := 6, conversation_id := "cX",
            memory_used := [] })).1.conversationId = wConvSt.conversationId ∧
      (∀ r ∈ (Part001.sendMessage wConvSt 5 (ServerOutcome.success
          { response := "r", timestamp := 6, conversation_id := "cX",
            memory_used := [] })).2,
        r.conversation_id = wConvSt.conversationId) ∧
      (∀ r ∈ (Frontend.sendMessage wConvSt 5 (ServerOutcome.success
          { response := "r", timestamp := 6, conversation_id := "cX",
            memory_used := [] })).2,
        r.conversation_id = wConvSt.conversationId) :=
  C8_amended_truthy_stable wConvSt 5 (ServerOutcome.success
    { response := "r", timestamp := 6, conversation_id := "cX",
      memory_used := [] }) (by decide)
